import Mathlib

/-!
Verification development for the medical-search pipeline.

Shallow embedding of the three route handlers:
  * src/unnamed/part_000 (the translate route, lines 1-216)
  * src/app/api/search/route.ts
  * src/app/api/ai-search/route.ts
External HTTP backends are modelled as oracle arguments: each route
function takes the outcome of every fetch it may issue as an explicit
parameter, and effect tracking (which backends were actually invoked)
is returned alongside the response.  JavaScript truthiness on
string-or-undefined values is modelled explicitly (absent = none,
empty string = falsy).
-/

/-- Truthiness of a process.env entry in JavaScript: present and non-empty.
Models `if (someKey)` on a string-or-undefined value. -/
def envSet : Option String → Bool
  | none => false
  | some s => !(s == "")

/-- Models the JavaScript idiom `x || defaultString` on a
string-or-undefined value: absent or empty falls back to the default. -/
def jsOr (o : Option String) (d : String) : String :=
  match o with
  | none => d
  | some s => if s == "" then d else s

/-- Truthiness of an optional string value (`if (x)` in JavaScript). -/
def jsTruthy : Option String → Bool
  | none => false
  | some s => !(s == "")

/-- Whether `p` is an initial segment of `l` (character lists). -/
def strStarts (p l : List Char) : Bool :=
  match p, l with
  | [], _ => true
  | _ :: _, [] => false
  | a :: ps, b :: ls => a == b && strStarts ps ls

/-- Whether `needle` occurs contiguously inside `hay` (character lists). -/
def strFind (needle hay : List Char) : Bool :=
  match hay with
  | [] => strStarts needle []
  | _ :: t => strStarts needle hay || strFind needle t

/-- Models JavaScript `hay.includes(needle)` for our ASCII tables. -/
def strIncludes (hay needle : String) : Bool :=
  strFind needle.toList hay.toList

/-- ASCII lower-casing of one character; the queries and the fixed table
the routes lower-case are ASCII, where this matches toLowerCase. -/
def lowerChar (c : Char) : Char :=
  if 65 ≤ c.toNat && c.toNat ≤ 90 then Char.ofNat (c.toNat + 32) else c

/-- Models toLowerCase on the ASCII strings the routes handle. -/
def strLower (s : String) : String :=
  String.mk (s.toList.map lowerChar)

/-- Models JavaScript trim: drop whitespace from both ends. -/
def strTrim (s : String) : String :=
  String.mk (((s.toList.dropWhile Char.isWhitespace).reverse.dropWhile
    Char.isWhitespace).reverse)

/-- Upper-case hexadecimal digit for a value below 16. -/
def hexDigit (n : Nat) : Char :=
  if n < 10 then Char.ofNat (48 + n) else Char.ofNat (55 + n)

/-- The bytes encodeURIComponent leaves unescaped: ASCII alphanumerics and
the marks - . _ ~ ! * ( ) and the apostrophe (byte 39). -/
def isUnreservedByte (b : Nat) : Bool :=
  (65 ≤ b && b ≤ 90) || (97 ≤ b && b ≤ 122) || (48 ≤ b && b ≤ 57) ||
  b == 45 || b == 46 || b == 95 || b == 126 || b == 33 || b == 42 ||
  b == 39 || b == 40 || b == 41

/-- Percent-encoding of one UTF-8 byte, unreserved bytes kept verbatim. -/
def encodeByte (b : Nat) : String :=
  if isUnreservedByte b then String.mk [Char.ofNat b]
  else String.mk [Char.ofNat 37, hexDigit (b / 16), hexDigit (b % 16)]

/-- UTF-8 byte sequence of one code point. -/
def utf8Bytes (c : Char) : List Nat :=
  let n := c.toNat
  if n < 128 then [n]
  else if n < 2048 then [192 + n / 64, 128 + n % 64]
  else if n < 65536 then [224 + n / 4096, 128 + (n / 64) % 64, 128 + n % 64]
  else [240 + n / 262144, 128 + (n / 4096) % 64, 128 + (n / 64) % 64, 128 + n % 64]

/-- Models JavaScript encodeURIComponent: every UTF-8 byte of the string is
kept verbatim when unreserved and percent-encoded otherwise. -/
def encodeURIComponent (s : String) : String :=
  String.join (s.toList.map (fun c => String.join ((utf8Bytes c).map encodeByte)))

/-- The credential environment the routes read through process.env. -/
structure Env where
  anthropicKey : Option String
  openaiKey : Option String
  googleKey : Option String
  googleCseId : Option String
deriving DecidableEq

/-- A route handler response: NextResponse.json of a success value, or of an
error object `\x7berror, details?\x7d` with an HTTP status. -/
inductive ApiResp (α : Type) where
  | ok (value : α)
  | err (error : String) (details : Option String) (status : Nat)
deriving DecidableEq

/-! ## Translate route (src/unnamed/part_000, lines 1-216) -/

/-- Outcome of one Anthropic/OpenAI chat fetch, as the route observes it.
`ok text` is a well-formed body whose resolved text field is `text`;
`malformed` is a 2xx body missing the expected fields, on which the
JavaScript field accesses throw; the other two are the HTTP-level
failures (both throw inside the helper). -/
inductive TxReply where
  | ok (text : String)
  | malformed
  | badStatus (status : Nat)
  | transport (msg : String)
deriving DecidableEq

/-- First candidate of a Gemini generateContent body:
`finishReason` and the resolved value of `content?.parts?.[0]?.text`. -/
structure GCandidate where
  finishReason : Option String
  text : Option String
deriving DecidableEq

/-- Parsed Gemini generateContent body: `candidates?.[0]`. -/
structure GBody where
  candidate : Option GCandidate
deriving DecidableEq

/-- Outcome of the Gemini translate fetch: parsed body, bad HTTP status
(with the error text the route reads), or a transport failure. -/
inductive GReply where
  | ok (body : GBody)
  | badStatus (status : Nat) (errorText : String)
  | transport (msg : String)
deriving DecidableEq

/-- Models translateWithAnthropic: non-ok status throws
`Anthropic API error: status`; a malformed body throws a TypeError while
reading data.content[0].text; otherwise the trimmed text is returned,
with no emptiness check. -/
def translateWithAnthropic (r : TxReply) : Except String String :=
  match r with
  | .ok t => .ok (strTrim t)
  | .malformed => .error "TypeError: cannot read fields of the response body"
  | .badStatus s => .error ("Anthropic API error: " ++ toString s)
  | .transport m => .error m

/-- Models translateWithOpenAI: same shape as the Anthropic helper over
data.choices[0].message.content. -/
def translateWithOpenAI (r : TxReply) : Except String String :=
  match r with
  | .ok t => .ok (strTrim t)
  | .malformed => .error "TypeError: cannot read fields of the response body"
  | .badStatus s => .error ("OpenAI API error: " ++ toString s)
  | .transport m => .error m

/-- Models translateWithGoogle: non-ok status throws with the error text,
a missing first candidate throws, finishReason MAX_TOKENS throws, a falsy
text field (absent or empty) throws, otherwise the trimmed text is
returned. -/
def translateWithGoogle (r : GReply) : Except String String :=
  match r with
  | .badStatus s t => .error ("Google API error: " ++ toString s ++ " - " ++ t)
  | .transport m => .error m
  | .ok body =>
    match body.candidate with
    | none => .error "Inget svar från Gemini API"
    | some cand =>
      if cand.finishReason == some "MAX_TOKENS" then
        .error "Svaret blev för långt (MAX_TOKENS) - försök igen"
      else
        match cand.text with
        | none => .error ("Tomt svar från Gemini: " ++ jsOr cand.finishReason "unknown reason")
        | some t =>
          if t == "" then
            .error ("Tomt svar från Gemini: " ++ jsOr cand.finishReason "unknown reason")
          else .ok (strTrim t)

/-- The fixed layman-to-medical substring table of fallbackTranslation, in
source order (Object.entries preserves the insertion order used here). -/
def mappings : List (String × String) :=
  [("headache", "cephalgia"),
   ("light sensitivity", "photophobia"),
   ("nausea", "nausea"),
   ("vomiting", "emesis"),
   ("fever", "pyrexia"),
   ("chest pain", "chest pain angina"),
   ("shortness of breath", "dyspnea"),
   ("dizzy", "vertigo dizziness"),
   ("stomach pain", "abdominal pain"),
   ("heart racing", "tachycardia palpitations")]

/-- Models fallbackTranslation: lower-case the query, collect the medical
phrase of every table entry whose layman phrase occurs in it, join the
matches with a comma, and fall back to the original query when nothing
matches. -/
def fallbackTranslation (query : String) : String :=
  let keywords := strLower query
  let terms := (mappings.filter (fun p => strIncludes keywords p.1)).map (fun p => p.2)
  if terms.length > 0 then String.intercalate ", " terms else query

/-- The four translation paths of the translate route. -/
inductive Provider where
  | anthropic
  | openai
  | google
  | localFallback
deriving DecidableEq

/-- The backend invocations a translation path performs: one fetch for a
provider path, none for the local fallback. -/
def backendCalls : Provider → List Provider
  | .localFallback => []
  | p => [p]

/-- The fixed credential priority order of the translate route, as the spec
states it: Anthropic, then OpenAI, then Google, then the local fallback. -/
def chooseProvider (env : Env) : Provider :=
  if envSet env.anthropicKey then .anthropic
  else if envSet env.openaiKey then .openai
  else if envSet env.googleKey then .google
  else .localFallback

/-- Models the translate route POST handler.  Returns the response together
with the list of provider backends actually fetched (in invocation order).
A thrown helper error is caught and becomes the 500 response with the
message as details. -/
def translatePOST (env : Env) (query : String) (a o : TxReply) (g : GReply) :
    ApiResp String × List Provider :=
  if query == "" then (.err "Query is required" none 400, [])
  else if envSet env.anthropicKey then
    match translateWithAnthropic a with
    | .ok t => (.ok t, [.anthropic])
    | .error m => (.err "Translation failed" (some m) 500, [.anthropic])
  else if envSet env.openaiKey then
    match translateWithOpenAI o with
    | .ok t => (.ok t, [.openai])
    | .error m => (.err "Translation failed" (some m) 500, [.openai])
  else if envSet env.googleKey then
    match translateWithGoogle g with
    | .ok t => (.ok t, [.google])
    | .error m => (.err "Translation failed" (some m) 500, [.google])
  else (.ok (fallbackTranslation query), [])

/-! ## Search route (src/app/api/search/route.ts) -/

/-- One merged search hit, as the route serialises it. -/
structure SearchResult where
  title : String
  snippet : String
  url : String
  source : String
deriving DecidableEq

/-- Source-selection flags of the request body (an absent field is falsy). -/
structure SourcesSel where
  pubmed : Bool
  medlineplus : Bool
  internetmedicin : Bool
  orto : Bool
deriving DecidableEq

/-- Outcome of one fetch: parsed body, non-success HTTP status, or a
transport/JSON failure that throws. -/
inductive FetchOut (β : Type) where
  | ok (body : β)
  | badStatus (status : Nat)
  | transport (msg : String)
deriving DecidableEq

/-- One esummary article record: the four fields the route reads, each
possibly absent.  `authors` holds the author names in order. -/
structure PubMedArticle where
  title : Option String
  authors : Option (List String)
  source : Option String
  pubdate : Option String
deriving DecidableEq

/-- The esearch body: `esearchresult?.idlist`, absent when the body lacks
the field (the route then falls back to an empty id list). -/
structure EsearchBody where
  idlist : Option (List String)
deriving DecidableEq

/-- The two fetches searchPubMed issues.  The esummary body is the
`result` field as an id-keyed association (absent when missing). -/
structure PubMedOutcome where
  esearch : FetchOut EsearchBody
  esummary : FetchOut (Option (List (String × PubMedArticle)))
deriving DecidableEq

/-- The snippet searchPubMed builds.  In the source the string
concatenation coerces an absent authors array to the text "undefined",
and the trailing `|| "No abstract available"` can never fire because the
concatenated string is non-empty. -/
def pubmedSnippet (a : PubMedArticle) : String :=
  (match a.authors with
   | some names => String.intercalate ", " (names.take 3)
   | none => "undefined") ++
  " - " ++ jsOr a.source "PubMed" ++ " (" ++ jsOr a.pubdate "N/A" ++ ")"

/-- Models searchPubMed: any thrown failure (bad status or transport on
either fetch) is caught and yields no results; otherwise one result per id
of the esearch idlist that has an article record in the esummary body.
The request asks for retmax=5 ids, but the response idlist is iterated in
full with no cap. -/
def searchPubMed (o : PubMedOutcome) : List SearchResult :=
  match o.esearch with
  | .badStatus _ => []
  | .transport _ => []
  | .ok body =>
    let ids := body.idlist.getD []
    if ids.isEmpty then []
    else
      match o.esummary with
      | .badStatus _ => []
      | .transport _ => []
      | .ok result =>
        ids.filterMap (fun id =>
          ((result.getD []).lookup id).map (fun a =>
            { title := jsOr a.title "Untitled"
              snippet := pubmedSnippet a
              url := "https://pubmed.ncbi.nlm.nih.gov/" ++ id ++ "/"
              source := "PubMed" }))

/-- One MedlinePlus feed entry with the resolved values the route reads:
`title` is the `title?._value || title` chain, `summary` likewise, and
`link` the href of the rel=alternate link when one exists. -/
structure MedlineEntry where
  title : Option String
  summary : Option String
  link : Option String
deriving DecidableEq

/-- The MedlinePlus body: `feed?.entry`, absent when missing. -/
structure MedlineBody where
  entries : Option (List MedlineEntry)
deriving DecidableEq

/-- Models searchMedlinePlus: a non-ok status returns no results without
throwing, a transport failure is caught to no results, and a parsed body
yields at most the first three entries. -/
def searchMedlinePlus (o : FetchOut MedlineBody) : List SearchResult :=
  match o with
  | .badStatus _ => []
  | .transport _ => []
  | .ok body =>
    ((body.entries.getD []).take 3).map (fun e =>
      let summary := jsOr e.summary "No description available"
      { title := jsOr e.title "Untitled"
        snippet := summary.take 200 ++ (if summary.length > 200 then "..." else "")
        url := e.link.getD "#"
        source := "MedlinePlus" })

/-- One Google Custom Search item as the route reads it. -/
structure CseItem where
  title : Option String
  snippet : Option String
  link : String
deriving DecidableEq

/-- A Custom Search body: `data.items`, absent when missing. -/
structure CseBody where
  items : Option (List CseItem)
deriving DecidableEq

/-- The manually constructed direct-search URL for Internetmedicin. -/
def imDirectUrl (q : String) : String :=
  "https://www.internetmedicin.se/search?q=" ++ encodeURIComponent q

/-- The manually constructed direct-search URL for Orto.nu. -/
def ortoDirectUrl (q : String) : String :=
  "https://www.orto.nu/search?q=" ++ encodeURIComponent q

/-- Whether the search route falls back to a direct-search link: no usable
Google API key, no CSE id, or the placeholder CSE id. -/
def cseMissing (env : Env) : Bool :=
  !(envSet env.googleKey) || !(envSet env.googleCseId) ||
  env.googleCseId == some "your_cse_id_here"

/-- Models searchInternetmedicin: with missing CSE credentials a single
synthetic link result; a thrown fetch failure is caught to a single
direct-link result with an error snippet; otherwise one result per item. -/
def searchInternetmedicin (env : Env) (q : String) (o : FetchOut CseBody) :
    List SearchResult :=
  if cseMissing env then
    [{ title := "Search Internetmedicin for: " ++ q
       snippet := "Click to search Internetmedicin.se, a Swedish medical information database for healthcare professionals. (Configure Google Custom Search for direct results)"
       url := imDirectUrl q
       source := "Internetmedicin" }]
  else
    match o with
    | .badStatus _ =>
      [{ title := "Search Internetmedicin for: " ++ q
         snippet := "Error fetching results. Click to search directly."
         url := imDirectUrl q
         source := "Internetmedicin" }]
    | .transport _ =>
      [{ title := "Search Internetmedicin for: " ++ q
         snippet := "Error fetching results. Click to search directly."
         url := imDirectUrl q
         source := "Internetmedicin" }]
    | .ok body =>
      (body.items.getD []).map (fun item =>
        { title := jsOr item.title "Untitled"
          snippet := jsOr item.snippet "No description available"
          url := item.link
          source := "Internetmedicin" })

/-- Models searchOrto, identical in shape to the Internetmedicin helper. -/
def searchOrto (env : Env) (q : String) (o : FetchOut CseBody) :
    List SearchResult :=
  if cseMissing env then
    [{ title := "Search Orto.nu for: " ++ q
       snippet := "Click to search Orto.nu, a Swedish orthopedic information resource. (Configure Google Custom Search for direct results)"
       url := ortoDirectUrl q
       source := "Orto.nu" }]
  else
    match o with
    | .badStatus _ =>
      [{ title := "Search Orto.nu for: " ++ q
         snippet := "Error fetching results. Click to search directly."
         url := ortoDirectUrl q
         source := "Orto.nu" }]
    | .transport _ =>
      [{ title := "Search Orto.nu for: " ++ q
         snippet := "Error fetching results. Click to search directly."
         url := ortoDirectUrl q
         source := "Orto.nu" }]
    | .ok body =>
      (body.items.getD []).map (fun item =>
        { title := jsOr item.title "Untitled"
          snippet := jsOr item.snippet "No description available"
          url := item.link
          source := "Orto.nu" })

/-- The backend outcomes one search request may consume. -/
structure SearchBackends where
  pm : PubMedOutcome
  ml : FetchOut MedlineBody
  im : FetchOut CseBody
  ot : FetchOut CseBody
deriving DecidableEq

/-- The per-backend result lists, one list per enabled source, in the fixed
invocation order of the route (PubMed, MedlinePlus, Internetmedicin,
Orto.nu): exactly the order the route pushes the promises. -/
def searchLists (env : Env) (q : String) (sel : SourcesSel) (b : SearchBackends) :
    List (List SearchResult) :=
  (if sel.pubmed then [searchPubMed b.pm] else []) ++
  (if sel.medlineplus then [searchMedlinePlus b.ml] else []) ++
  (if sel.internetmedicin then [searchInternetmedicin env q b.im] else []) ++
  (if sel.orto then [searchOrto env q b.ot] else [])

/-- All sources enabled: the default when the request names none. -/
def allSources : SourcesSel := ⟨true, true, true, true⟩

/-- Models the search route POST handler: validate the query, default the
selection, await all enabled backends and flatten their lists in
invocation order. -/
def searchPOST (env : Env) (q : String) (sel : Option SourcesSel)
    (b : SearchBackends) : ApiResp (List SearchResult) :=
  if q == "" then .err "Query is required" none 400
  else .ok (searchLists env q (sel.getD allSources) b).flatten

/-- Models Promise.all over the fan-out: `arrivals` lists the settled
promises in completion order, each tagged with the index at which it was
pushed; the result slot i holds the value of promise i, independent of
when it settled. -/
def settleAll (n : Nat) (arrivals : List (Nat × List SearchResult)) :
    List (List SearchResult) :=
  (List.range n).filterMap (fun i =>
    (arrivals.find? (fun p => p.1 == i)).map (fun p => p.2))

/-- The results list of a response, empty for an error response. -/
def respResults (r : ApiResp (List SearchResult)) : List SearchResult :=
  match r with
  | .ok l => l
  | .err _ _ _ => []

/-- Number of merged results attributed to a given source identifier. -/
def countSource (rs : List SearchResult) (s : String) : Nat :=
  (rs.filter (fun r => r.source == s)).length

/-! ## AI-search route (src/app/api/ai-search/route.ts) -/

/-- One citation entry of the grounded answer. -/
structure GroundingSource where
  title : String
  url : String
deriving DecidableEq

/-- The `web` object of one grounding chunk: uri and title, each possibly
absent (or empty, which JavaScript treats as falsy). -/
structure WebInfo where
  uri : Option String
  title : Option String
deriving DecidableEq

/-- One grounding chunk: its `web` object when present. -/
structure GroundChunk where
  web : Option WebInfo
deriving DecidableEq

/-- The first candidate of the grounded-generation body: the text fields of
`content?.parts` in order (absent when the parts array is missing), and
`groundingMetadata?.groundingChunks` when present. -/
structure AiCandidate where
  parts : Option (List (Option String))
  groundingChunks : Option (List GroundChunk)
deriving DecidableEq

/-- The grounded-generation body: `candidates?.[0]`. -/
structure AiBody where
  candidate : Option AiCandidate
deriving DecidableEq

/-- Outcome of the single Gemini grounded-generation fetch. -/
inductive AiOutcome where
  | ok (body : AiBody)
  | badStatus (status : Nat) (errorText : String)
  | transport (msg : String)
deriving DecidableEq

/-- The successful ai-search payload: answer text, citation list and the
hasGrounding flag. -/
structure AiAnswer where
  answer : String
  sources : List GroundingSource
  hasGrounding : Bool
deriving DecidableEq

/-- Models `content?.parts?.find((part) => part.text)?.text`: the first
truthy (present and non-empty) text field among the parts. -/
def findTruthyText (parts : Option (List (Option String))) : Option String :=
  (parts.getD []).findSome? (fun t => if jsTruthy t then t else none)

/-- Models the grounding-source extraction loop: one entry per chunk whose
web object carries a truthy uri and a truthy title. -/
def extractSources (chunks : Option (List GroundChunk)) : List GroundingSource :=
  (chunks.getD []).filterMap (fun ch =>
    match ch.web with
    | none => none
    | some w =>
      if jsTruthy w.uri && jsTruthy w.title then
        some { title := w.title.getD "", url := w.uri.getD "" }
      else none)

/-- The per-source prompt lines the route builds from the selection, in the
order it pushes them (Internetmedicin, Orto, PubMed, MedlinePlus).  Only
the request body uses this text; it is recorded for fidelity. -/
def promptSourceList (sel : SourcesSel) : List String :=
  (if sel.internetmedicin then ["internetmedicin.se (svensk medicinsk databas)"] else []) ++
  (if sel.orto then ["orto.nu (svensk ortopedisk information)"] else []) ++
  (if sel.pubmed then ["pubmed.ncbi.nlm.nih.gov (vetenskapliga artiklar)"] else []) ++
  (if sel.medlineplus then ["medlineplus.gov (patientinformation)"] else [])

/-- Models the ai-search route POST handler.  The Bool of the pair records
whether the Gemini fetch was issued; a thrown error is caught and becomes
the fixed 500 response with the message as details.  The request body
embeds `promptSourceList` of the (defaulted) selection; only the oracle
outcome `o` of that single fetch determines the response. -/
def aiSearchPOST (env : Env) (query medicalTerms : String)
    (_sel : Option SourcesSel) (o : AiOutcome) : ApiResp AiAnswer × Bool :=
  if query == "" || medicalTerms == "" then
    (.err "Query and medicalTerms are required" none 400, false)
  else if !(envSet env.googleKey) then
    (.err "Google API key not configured" none 500, false)
  else
    match o with
    | .badStatus s _ =>
      (.err "AI-sökning misslyckades" (some ("Gemini API error: " ++ toString s)) 500, true)
    | .transport m => (.err "AI-sökning misslyckades" (some m) 500, true)
    | .ok body =>
      match body.candidate with
      | none => (.err "AI-sökning misslyckades" (some "Inget svar från Gemini") 500, true)
      | some cand =>
        match findTruthyText cand.parts with
        | none => (.err "AI-sökning misslyckades" (some "Tomt svar från Gemini") 500, true)
        | some text =>
          let sources := extractSources cand.groundingChunks
          (.ok { answer := strTrim text
                 sources := sources
                 hasGrounding := decide (sources.length > 0) }, true)

/-! ## Helper lemmas -/

theorem intercalate_go_append (s : String) (as : List String) (acc : String) :
    ∃ r, String.intercalate.go acc s as = acc ++ r := by
  induction as generalizing acc with
  | nil => exact ⟨"", by simp [String.intercalate.go]⟩
  | cons a as ih =>
    obtain ⟨r, hr⟩ := ih (acc ++ s ++ a)
    refine ⟨s ++ a ++ r, ?_⟩
    have h1 : String.intercalate.go acc s (a :: as) =
        String.intercalate.go (acc ++ s ++ a) s as := rfl
    rw [h1, hr]
    simp [String.append_assoc]

theorem append_ne_empty_left (x r : String) (hx : x ≠ "") : x ++ r ≠ "" := by
  intro h
  apply hx
  have hlen : (x ++ r).length = 0 := by rw [h]; rfl
  rw [String.length_append] at hlen
  have hx0 : x.length = 0 := by omega
  cases x with
  | mk data =>
    cases data with
    | nil => rfl
    | cons c cs => simp [String.length] at hx0

theorem intercalate_ne_empty (s t : String) (ts : List String) (ht : t ≠ "") :
    String.intercalate s (t :: ts) ≠ "" := by
  show String.intercalate.go t s ts ≠ ""
  obtain ⟨r, hr⟩ := intercalate_go_append s ts t
  rw [hr]
  exact append_ne_empty_left t r ht

theorem fallbackTranslation_ne_empty (q : String) (hq : q ≠ "") :
    fallbackTranslation q ≠ "" := by
  unfold fallbackTranslation
  by_cases h :
      ((mappings.filter (fun p => strIncludes (strLower q) p.1)).map (fun p => p.2)).length > 0
  · rw [if_pos h]
    rcases hc : (mappings.filter (fun p => strIncludes (strLower q) p.1)).map (fun p => p.2) with
      _ | ⟨t, ts⟩
    · rw [hc] at h; simp at h
    · rw [hc]
      apply intercalate_ne_empty
      have ht : t ∈ (mappings.filter (fun p => strIncludes (strLower q) p.1)).map
          (fun p => p.2) := by
        rw [hc]; exact List.mem_cons_self t ts
      obtain ⟨p, hp, hpt⟩ := List.mem_map.mp ht
      have hpm : p ∈ mappings := (List.mem_filter.mp hp).1
      have hall : ∀ p ∈ mappings, p.2 ≠ "" := by decide
      exact hpt ▸ hall p hpm
  · rw [if_neg h]
    exact hq

/-! ## Claims about the translate route -/

/-- Claim C7: for every credential configuration, translate takes exactly one
translation path chosen by fixed priority (Anthropic, OpenAI, Google, local
fallback), invokes that provider backend at most once, and a failure of the
chosen provider yields an error without invoking any other provider. -/
theorem translate_single_provider_priority (env : Env) (q : String) (a o : TxReply)
    (g : GReply) (hq : q ≠ "") :
    (translatePOST env q a o g).2 = backendCalls (chooseProvider env) ∧
    (chooseProvider env = Provider.anthropic → ∀ m, translateWithAnthropic a = .error m →
      (translatePOST env q a o g).1 = .err "Translation failed" (some m) 500) ∧
    (chooseProvider env = Provider.openai → ∀ m, translateWithOpenAI o = .error m →
      (translatePOST env q a o g).1 = .err "Translation failed" (some m) 500) ∧
    (chooseProvider env = Provider.google → ∀ m, translateWithGoogle g = .error m →
      (translatePOST env q a o g).1 = .err "Translation failed" (some m) 500) ∧
    (chooseProvider env = Provider.localFallback →
      translatePOST env q a o g = (.ok (fallbackTranslation q), [])) := by
  have hq' : (q == "") = false := beq_eq_false_iff_ne.mpr hq
  cases hA : envSet env.anthropicKey with
  | true =>
    cases ha : translateWithAnthropic a with
    | ok t => simp [translatePOST, chooseProvider, hq', hA, ha, backendCalls]
    | error m => simp [translatePOST, chooseProvider, hq', hA, ha, backendCalls]
  | false =>
    cases hO : envSet env.openaiKey with
    | true =>
      cases ho : translateWithOpenAI o with
      | ok t => simp [translatePOST, chooseProvider, hq', hA, hO, ho, backendCalls]
      | error m => simp [translatePOST, chooseProvider, hq', hA, hO, ho, backendCalls]
    | false =>
      cases hG : envSet env.googleKey with
      | true =>
        cases hg : translateWithGoogle g with
        | ok t => simp [translatePOST, chooseProvider, hq', hA, hO, hG, hg, backendCalls]
        | error m => simp [translatePOST, chooseProvider, hq', hA, hO, hG, hg, backendCalls]
      | false =>
        simp [translatePOST, chooseProvider, hq', hA, hO, hG, backendCalls]

/-- Witness for translate_single_provider_priority at a concrete
configuration with only the OpenAI key set and a failing OpenAI reply. -/
theorem translate_single_provider_priority_witness :
    (translatePOST ⟨none, some "sk", none, none⟩ "tired" (.ok "x") (.badStatus 500)
        (.transport "x")).2 = backendCalls (chooseProvider ⟨none, some "sk", none, none⟩) ∧
    (chooseProvider ⟨none, some "sk", none, none⟩ = Provider.anthropic →
      ∀ m, translateWithAnthropic (.ok "x") = .error m →
      (translatePOST ⟨none, some "sk", none, none⟩ "tired" (.ok "x") (.badStatus 500)
        (.transport "x")).1 = .err "Translation failed" (some m) 500) ∧
    (chooseProvider ⟨none, some "sk", none, none⟩ = Provider.openai →
      ∀ m, translateWithOpenAI (.badStatus 500) = .error m →
      (translatePOST ⟨none, some "sk", none, none⟩ "tired" (.ok "x") (.badStatus 500)
        (.transport "x")).1 = .err "Translation failed" (some m) 500) ∧
    (chooseProvider ⟨none, some "sk", none, none⟩ = Provider.google →
      ∀ m, translateWithGoogle (.transport "x") = .error m →
      (translatePOST ⟨none, some "sk", none, none⟩ "tired" (.ok "x") (.badStatus 500)
        (.transport "x")).1 = .err "Translation failed" (some m) 500) ∧
    (chooseProvider ⟨none, some "sk", none, none⟩ = Provider.localFallback →
      translatePOST ⟨none, some "sk", none, none⟩ "tired" (.ok "x") (.badStatus 500)
        (.transport "x") = (.ok (fallbackTranslation "tired"), [])) :=
  translate_single_provider_priority ⟨none, some "sk", none, none⟩ "tired" (.ok "x")
    (.badStatus 500) (.transport "x") (by decide)

/-- Claim C2 counterexample: with the Anthropic key configured and a
provider reply whose text is a single blank, translate returns a success
whose medicalTerms string is empty: the never-empty-success guarantee is
false as stated. -/
theorem translate_empty_success_counterexample :
    translatePOST ⟨some "key", none, none, none⟩ "tired all the time" (.ok " ") .malformed
      (.transport "x") = (.ok "", [Provider.anthropic]) := by decide

/-- Claim C2 as amended: for every non-empty query, translate returns an
explicit error or a non-empty success, except that a provider path whose
invoked provider resolves to empty trimmed text yields an empty-string
success (the provider paths re-check nothing); the local fallback path
never produces an empty success. -/
theorem translate_empty_only_from_provider_text (env : Env) (q : String) (a o : TxReply)
    (g : GReply) (hq : q ≠ "") :
    (∃ e d s, (translatePOST env q a o g).1 = .err e d s) ∨
    (∃ t, (translatePOST env q a o g).1 = .ok t ∧ t ≠ "") ∨
    ((translatePOST env q a o g).1 = .ok "" ∧
      ((chooseProvider env = Provider.anthropic ∧ translateWithAnthropic a = .ok "") ∨
       (chooseProvider env = Provider.openai ∧ translateWithOpenAI o = .ok "") ∨
       (chooseProvider env = Provider.google ∧ translateWithGoogle g = .ok ""))) := by
  have hq' : (q == "") = false := beq_eq_false_iff_ne.mpr hq
  cases hA : envSet env.anthropicKey with
  | true =>
    cases ha : translateWithAnthropic a with
    | ok t =>
      by_cases ht : t = ""
      · subst ht
        exact Or.inr (Or.inr ⟨by simp [translatePOST, hq', hA, ha],
          Or.inl ⟨by simp [chooseProvider, hA], rfl⟩⟩)
      · exact Or.inr (Or.inl ⟨t, by simp [translatePOST, hq', hA, ha], ht⟩)
    | error m =>
      exact Or.inl ⟨"Translation failed", some m, 500, by simp [translatePOST, hq', hA, ha]⟩
  | false =>
    cases hO : envSet env.openaiKey with
    | true =>
      cases ho : translateWithOpenAI o with
      | ok t =>
        by_cases ht : t = ""
        · subst ht
          exact Or.inr (Or.inr ⟨by simp [translatePOST, hq', hA, hO, ho],
            Or.inr (Or.inl ⟨by simp [chooseProvider, hA, hO], rfl⟩)⟩)
        · exact Or.inr (Or.inl ⟨t, by simp [translatePOST, hq', hA, hO, ho], ht⟩)
      | error m =>
        exact Or.inl ⟨"Translation failed", some m, 500,
          by simp [translatePOST, hq', hA, hO, ho]⟩
    | false =>
      cases hG : envSet env.googleKey with
      | true =>
        cases hg : translateWithGoogle g with
        | ok t =>
          by_cases ht : t = ""
          · subst ht
            exact Or.inr (Or.inr ⟨by simp [translatePOST, hq', hA, hO, hG, hg],
              Or.inr (Or.inr ⟨by simp [chooseProvider, hA, hO, hG], rfl⟩)⟩)
          · exact Or.inr (Or.inl ⟨t, by simp [translatePOST, hq', hA, hO, hG, hg], ht⟩)
        | error m =>
          exact Or.inl ⟨"Translation failed", some m, 500,
            by simp [translatePOST, hq', hA, hO, hG, hg]⟩
      | false =>
        exact Or.inr (Or.inl ⟨fallbackTranslation q,
          by simp [translatePOST, hq', hA, hO, hG], fallbackTranslation_ne_empty q hq⟩)

/-- Witness for translate_empty_only_from_provider_text with no credentials
configured: the local fallback path is taken. -/
theorem translate_empty_only_from_provider_text_witness :
    (∃ e d s, (translatePOST ⟨none, none, none, none⟩ "feeling dizzy" (.ok "x")
        (.badStatus 400) (.transport "x")).1 = .err e d s) ∨
    (∃ t, (translatePOST ⟨none, none, none, none⟩ "feeling dizzy" (.ok "x")
        (.badStatus 400) (.transport "x")).1 = .ok t ∧ t ≠ "") ∨
    ((translatePOST ⟨none, none, none, none⟩ "feeling dizzy" (.ok "x")
        (.badStatus 400) (.transport "x")).1 = .ok "" ∧
      ((chooseProvider ⟨none, none, none, none⟩ = Provider.anthropic ∧
          translateWithAnthropic (.ok "x") = .ok "") ∨
       (chooseProvider ⟨none, none, none, none⟩ = Provider.openai ∧
          translateWithOpenAI (.badStatus 400) = .ok "") ∨
       (chooseProvider ⟨none, none, none, none⟩ = Provider.google ∧
          translateWithGoogle (.transport "x") = .ok ""))) :=
  translate_empty_only_from_provider_text ⟨none, none, none, none⟩ "feeling dizzy"
    (.ok "x") (.badStatus 400) (.transport "x") (by decide)

/-- Claim C9: with no credentials configured, the query about a bad headache
with light sensitivity is translated by the local fallback to exactly the
two matching table entries joined in table order. -/
theorem fallback_headache_light_sensitivity (env : Env) (a o : TxReply) (g : GReply)
    (h1 : envSet env.anthropicKey = false) (h2 : envSet env.openaiKey = false)
    (h3 : envSet env.googleKey = false) :
    translatePOST env "bad headache with light sensitivity" a o g =
      (.ok "cephalgia, photophobia", []) := by
  have hne : (("bad headache with light sensitivity" : String) == "") = false := by decide
  have hfb : fallbackTranslation "bad headache with light sensitivity" =
      "cephalgia, photophobia" := by decide
  simp [translatePOST, hne, h1, h2, h3, hfb]

/-- Witness for fallback_headache_light_sensitivity at the all-absent
credential environment. -/
theorem fallback_headache_light_sensitivity_witness :
    translatePOST ⟨none, none, none, none⟩ "bad headache with light sensitivity"
      (.ok "x") (.badStatus 400) (.transport "x") = (.ok "cephalgia, photophobia", []) :=
  fallback_headache_light_sensitivity ⟨none, none, none, none⟩ (.ok "x") (.badStatus 400)
    (.transport "x") (by decide) (by decide) (by decide)

/-! ## Search-route lemmas -/

theorem searchPubMed_source (o : PubMedOutcome) :
    ∀ r ∈ searchPubMed o, r.source = "PubMed" := by
  rcases o with ⟨es, esm⟩
  rcases es with body | s | m
  · intro r hr
    unfold searchPubMed at hr
    simp only at hr
    cases hids : (body.idlist.getD []).isEmpty with
    | true => rw [hids] at hr; simp at hr
    | false =>
      rw [hids] at hr
      simp only [Bool.false_eq_true, if_false] at hr
      rcases esm with res | s | m
      · obtain ⟨id, hid, hfa⟩ := List.mem_filterMap.mp hr
        obtain ⟨a2, hla, hrec⟩ := Option.map_eq_some'.mp hfa
        rw [← hrec]
      · simp at hr
      · simp at hr
  · intro r hr; simp [searchPubMed] at hr
  · intro r hr; simp [searchPubMed] at hr

theorem searchMedlinePlus_source (o : FetchOut MedlineBody) :
    ∀ r ∈ searchMedlinePlus o, r.source = "MedlinePlus" := by
  rcases o with body | s | m
  · intro r hr
    unfold searchMedlinePlus at hr
    obtain ⟨e, he, hrec⟩ := List.mem_map.mp hr
    rw [← hrec]
  · intro r hr; simp [searchMedlinePlus] at hr
  · intro r hr; simp [searchMedlinePlus] at hr

theorem searchInternetmedicin_source (env : Env) (q : String) (o : FetchOut CseBody) :
    ∀ r ∈ searchInternetmedicin env q o, r.source = "Internetmedicin" := by
  intro r hr
  unfold searchInternetmedicin at hr
  cases hc : cseMissing env with
  | true =>
    rw [hc] at hr
    simp at hr
    rw [hr]
  | false =>
    rw [hc] at hr
    simp only [Bool.false_eq_true, if_false] at hr
    rcases o with body | s | m
    · obtain ⟨item, hi, hrec⟩ := List.mem_map.mp hr
      rw [← hrec]
    · simp at hr; rw [hr]
    · simp at hr; rw [hr]

theorem searchOrto_source (env : Env) (q : String) (o : FetchOut CseBody) :
    ∀ r ∈ searchOrto env q o, r.source = "Orto.nu" := by
  intro r hr
  unfold searchOrto at hr
  cases hc : cseMissing env with
  | true =>
    rw [hc] at hr
    simp at hr
    rw [hr]
  | false =>
    rw [hc] at hr
    simp only [Bool.false_eq_true, if_false] at hr
    rcases o with body | s | m
    · obtain ⟨item, hi, hrec⟩ := List.mem_map.mp hr
      rw [← hrec]
    · simp at hr; rw [hr]
    · simp at hr; rw [hr]

theorem countSource_append (xs ys : List SearchResult) (s : String) :
    countSource (xs ++ ys) s = countSource xs s + countSource ys s := by
  unfold countSource
  rw [List.filter_append, List.length_append]

theorem countSource_eq_zero (rs : List SearchResult) (s s2 : String)
    (hall : ∀ r ∈ rs, r.source = s) (hne : s ≠ s2) : countSource rs s2 = 0 := by
  unfold countSource
  rw [List.length_eq_zero]
  rw [List.filter_eq_nil_iff]
  intro r hr
  have := hall r hr
  simp [this, hne]

theorem countSource_le_length (rs : List SearchResult) (s : String) :
    countSource rs s ≤ rs.length :=
  List.length_filter_le _ _

theorem searchMedlinePlus_length (o : FetchOut MedlineBody) :
    (searchMedlinePlus o).length ≤ 3 := by
  rcases o with body | s | m
  · unfold searchMedlinePlus
    simp only [List.length_map, List.length_take]
    omega
  · simp [searchMedlinePlus]
  · simp [searchMedlinePlus]

/-- The number of ids in the esearch response idlist (zero when the first
fetch failed or the field was missing). -/
def pubmedIdCount (o : PubMedOutcome) : Nat :=
  match o.esearch with
  | .ok body => (body.idlist.getD []).length
  | .badStatus _ => 0
  | .transport _ => 0

theorem searchPubMed_length (o : PubMedOutcome) :
    (searchPubMed o).length ≤ pubmedIdCount o := by
  rcases o with ⟨es, esm⟩
  rcases es with body | s | m
  · unfold searchPubMed pubmedIdCount
    simp only
    cases hids : (body.idlist.getD []).isEmpty with
    | true => simp
    | false =>
      simp only [Bool.false_eq_true, if_false]
      rcases esm with res | s | m
      · exact List.length_filterMap_le _ _
      · simp
      · simp
  · simp [searchPubMed, pubmedIdCount]
  · simp [searchPubMed, pubmedIdCount]

/-- A BackendError of the literature (PubMed) backend as the claim lists
them: a bad status or transport failure on either fetch, or a body missing
the expected field (idlist or result). -/
def pubmedFails (o : PubMedOutcome) : Bool :=
  match o.esearch with
  | .badStatus _ => true
  | .transport _ => true
  | .ok body =>
    match body.idlist with
    | none => true
    | some ids =>
      !ids.isEmpty &&
      (match o.esummary with
       | .badStatus _ => true
       | .transport _ => true
       | .ok res => res == none)

theorem searchPubMed_eq_nil_of_fails (o : PubMedOutcome)
    (h : pubmedFails o = true) : searchPubMed o = [] := by
  rcases o with ⟨es, esm⟩
  rcases es with body | s | m
  · rcases body with ⟨ids⟩
    rcases ids with _ | ids
    · simp [searchPubMed]
    · unfold pubmedFails at h
      simp only [Bool.and_eq_true, Bool.not_eq_true'] at h
      obtain ⟨hne, hrest⟩ := h
      unfold searchPubMed
      simp only [Option.getD_some, hne, Bool.false_eq_true, if_false]
      rcases esm with res | s | m
      · simp only [beq_iff_eq] at hrest
        subst hrest
        simp
      · simp
      · simp
  · simp [searchPubMed]
  · simp [searchPubMed]

theorem find_index_in_perm_enum {α : Type} (l : List α) (arr : List (Nat × α))
    (hp : arr.Perm l.enum) (i : Nat) (h : i < l.length) :
    arr.find? (fun p => p.1 == i) = some (i, l.get ⟨i, h⟩) := by
  have hmem : (i, l.get ⟨i, h⟩) ∈ arr := by
    apply hp.mem_iff.mpr
    rw [List.mk_mem_enum_iff_getElem?]
    simp [List.getElem?_eq_getElem h]
  have hsome : (arr.find? (fun p => p.1 == i)).isSome := by
    apply List.find?_isSome.mpr
    exact ⟨(i, l.get ⟨i, h⟩), hmem, by simp⟩
  obtain ⟨p, hfind⟩ := Option.isSome_iff_exists.mp hsome
  have hpi : p.1 = i := by
    have := List.find?_some hfind
    simpa using this
  have hpenum : p ∈ l.enum := hp.mem_iff.mp (List.mem_of_find?_eq_some hfind)
  have hp2 : l[i]? = some p.2 := by
    have : (p.1, p.2) ∈ l.enum := by rwa [Prod.mk.eta]
    rw [hpi] at this
    exact List.mk_mem_enum_iff_getElem?.mp this
  have hpv : p.2 = l.get ⟨i, h⟩ := by
    rw [List.getElem?_eq_getElem h] at hp2
    simpa using hp2.symm
  rw [hfind]
  congr 1
  calc p = (p.1, p.2) := by rw [Prod.mk.eta]
  _ = (i, l.get ⟨i, h⟩) := by rw [hpi, hpv]

theorem filterMap_range_get {α : Type} (l : List α) (f : Nat → Option α)
    (hf : ∀ i (h : i < l.length), f i = some (l.get ⟨i, h⟩)) :
    (List.range l.length).filterMap f = l := by
  induction l generalizing f with
  | nil => simp
  | cons a t ih =>
    have hlen : (a :: t).length = t.length + 1 := rfl
    rw [hlen, List.range_succ_eq_map, List.filterMap_cons]
    have h0 : f 0 = some a := hf 0 (by simp)
    rw [h0, List.filterMap_map]
    have ht : (List.range t.length).filterMap (f ∘ Nat.succ) = t := by
      apply ih
      intro i h
      have := hf (i + 1) (by simpa using Nat.succ_lt_succ h)
      simpa using this
    rw [ht]

theorem settleAll_perm (batches : List (List SearchResult))
    (arr : List (Nat × List SearchResult)) (hp : arr.Perm batches.enum) :
    settleAll batches.length arr = batches := by
  unfold settleAll
  apply filterMap_range_get
  intro i h
  rw [find_index_in_perm_enum batches arr hp i h]
  rfl

theorem searchLists_flatten (env : Env) (q : String) (sel : SourcesSel)
    (b : SearchBackends) :
    (searchLists env q sel b).flatten =
      (if sel.pubmed then searchPubMed b.pm else []) ++
      (if sel.medlineplus then searchMedlinePlus b.ml else []) ++
      (if sel.internetmedicin then searchInternetmedicin env q b.im else []) ++
      (if sel.orto then searchOrto env q b.ot else []) := by
  unfold searchLists
  rcases sel with ⟨p, m, i, o⟩
  cases p <;> cases m <;> cases i <;> cases o <;> simp

/-! ## Claims about the search route -/

/-- Claim C8: for every selection and every completion order of the
fan-out, the merged list is the concatenation of the enabled backend lists
in the fixed invocation order (PubMed, MedlinePlus, Internetmedicin,
Orto.nu), never interleaved by arrival time, and the route returns exactly
that concatenation. -/
theorem search_merge_fixed_order (env : Env) (q : String) (sel : SourcesSel)
    (b : SearchBackends) (arrivals : List (Nat × List SearchResult))
    (hq : q ≠ "") (hp : arrivals.Perm (searchLists env q sel b).enum) :
    (settleAll (searchLists env q sel b).length arrivals).flatten =
      (if sel.pubmed then searchPubMed b.pm else []) ++
      (if sel.medlineplus then searchMedlinePlus b.ml else []) ++
      (if sel.internetmedicin then searchInternetmedicin env q b.im else []) ++
      (if sel.orto then searchOrto env q b.ot else []) ∧
    searchPOST env q (some sel) b =
      .ok ((if sel.pubmed then searchPubMed b.pm else []) ++
           (if sel.medlineplus then searchMedlinePlus b.ml else []) ++
           (if sel.internetmedicin then searchInternetmedicin env q b.im else []) ++
           (if sel.orto then searchOrto env q b.ot else [])) := by
  have hq' : (q == "") = false := beq_eq_false_iff_ne.mpr hq
  constructor
  · rw [settleAll_perm _ _ hp, searchLists_flatten]
  · unfold searchPOST
    rw [hq']
    simp only [Bool.false_eq_true, if_false, Option.getD_some]
    rw [searchLists_flatten]

/-- Concrete backend fixtures used by closed statements. -/
def envNoCred : Env := ⟨none, none, none, none⟩

def artA : PubMedArticle := ⟨some "T1", some ["A B"], some "Journal", some "2024"⟩

def pmOne : PubMedOutcome := ⟨.ok ⟨some ["11"]⟩, .ok (some [("11", artA)])⟩

def mlOne : FetchOut MedlineBody := .ok ⟨some [⟨some "M", some "S", some "u"⟩]⟩

def bTwo : SearchBackends := ⟨pmOne, mlOne, .transport "x", .transport "x"⟩

def selPmMl : SourcesSel := ⟨true, true, false, false⟩

/-- Witness for search_merge_fixed_order: two enabled backends whose
promises settle in reversed order still merge in invocation order. -/
theorem search_merge_fixed_order_witness :
    (settleAll (searchLists envNoCred "knee" selPmMl bTwo).length
        ((searchLists envNoCred "knee" selPmMl bTwo).enum.reverse)).flatten =
      (if selPmMl.pubmed then searchPubMed bTwo.pm else []) ++
      (if selPmMl.medlineplus then searchMedlinePlus bTwo.ml else []) ++
      (if selPmMl.internetmedicin then searchInternetmedicin envNoCred "knee" bTwo.im else []) ++
      (if selPmMl.orto then searchOrto envNoCred "knee" bTwo.ot else []) ∧
    searchPOST envNoCred "knee" (some selPmMl) bTwo =
      .ok ((if selPmMl.pubmed then searchPubMed bTwo.pm else []) ++
           (if selPmMl.medlineplus then searchMedlinePlus bTwo.ml else []) ++
           (if selPmMl.internetmedicin then searchInternetmedicin envNoCred "knee" bTwo.im else []) ++
           (if selPmMl.orto then searchOrto envNoCred "knee" bTwo.ot else [])) :=
  search_merge_fixed_order envNoCred "knee" selPmMl bTwo
    ((searchLists envNoCred "knee" selPmMl bTwo).enum.reverse)
    (by decide) (List.reverse_perm _)

/-- Claim C4: a BackendError of the PubMed backend leaves the merge of the
other enabled backends intact; the failed backend contributes nothing and
the route still answers with a success. -/
theorem search_pubmed_failure_isolated (env : Env) (q : String) (sel : SourcesSel)
    (b : SearchBackends) (hq : q ≠ "") (hf : pubmedFails b.pm = true) :
    searchPOST env q (some sel) b =
      .ok ((if sel.medlineplus then searchMedlinePlus b.ml else []) ++
           (if sel.internetmedicin then searchInternetmedicin env q b.im else []) ++
           (if sel.orto then searchOrto env q b.ot else [])) := by
  have hq' : (q == "") = false := beq_eq_false_iff_ne.mpr hq
  have hz := searchPubMed_eq_nil_of_fails b.pm hf
  unfold searchPOST
  rw [hq']
  simp only [Bool.false_eq_true, if_false, Option.getD_some]
  rw [searchLists_flatten]
  cases hsp : sel.pubmed <;> simp [hz]

/-- Witness for search_pubmed_failure_isolated: an esearch status failure
with all sources enabled. -/
theorem search_pubmed_failure_isolated_witness :
    searchPOST envNoCred "knee" (some allSources)
        ⟨⟨.badStatus 500, .transport "x"⟩, mlOne, .transport "x", .transport "x"⟩ =
      .ok ((if allSources.medlineplus then searchMedlinePlus mlOne else []) ++
           (if allSources.internetmedicin then
              searchInternetmedicin envNoCred "knee" (.transport "x") else []) ++
           (if allSources.orto then searchOrto envNoCred "knee" (.transport "x") else [])) :=
  search_pubmed_failure_isolated envNoCred "knee" allSources
    ⟨⟨.badStatus 500, .transport "x"⟩, mlOne, .transport "x", .transport "x"⟩
    (by decide) (by decide)

/-- A PubMed response carrying six ids with six summary records: more than
the five the request asked for via retmax. -/
def art0 : PubMedArticle := ⟨none, none, none, none⟩

def pmSix : PubMedOutcome :=
  ⟨.ok ⟨some ["1", "2", "3", "4", "5", "6"]⟩,
   .ok (some [("1", art0), ("2", art0), ("3", art0), ("4", art0), ("5", art0), ("6", art0)])⟩

/-- Claim C3 counterexample: when the PubMed response body carries six ids,
the merged result holds six PubMed results: the literature cap of five is
not enforced on the response body. -/
theorem search_pubmed_cap_counterexample :
    ¬ countSource (respResults (searchPOST envNoCred "migraine"
        (some ⟨true, false, false, false⟩) ⟨pmSix, .transport "x", .transport "x", .transport "x"⟩))
      "PubMed" ≤ 5 := by
  set_option maxRecDepth 8192 in decide

/-- Claim C3 as amended: the consumer-health (MedlinePlus) cap of three is
enforced on the response body, while the literature (PubMed) cap of five
is only requested through the retmax parameter: the route emits one result
per id of the response idlist, so the PubMed count is bounded only by the
number of ids the backend chose to return. -/
theorem search_per_source_caps (env : Env) (q : String) (sel : SourcesSel)
    (b : SearchBackends) (r : List SearchResult)
    (h : searchPOST env q (some sel) b = .ok r) :
    countSource r "MedlinePlus" ≤ 3 ∧ countSource r "PubMed" ≤ pubmedIdCount b.pm := by
  unfold searchPOST at h
  by_cases hq : (q == "") = true
  · rw [if_pos hq] at h; cases h
  · rw [if_neg hq] at h
    simp only [Option.getD_some, ApiResp.ok.injEq] at h
    subst h
    rw [searchLists_flatten]
    have hpmMl : countSource (if sel.pubmed then searchPubMed b.pm else []) "MedlinePlus" = 0 := by
      cases sel.pubmed
      · simp [countSource]
      · exact countSource_eq_zero _ _ _ (by simpa using searchPubMed_source b.pm) (by decide)
    have himMl : countSource (if sel.internetmedicin then searchInternetmedicin env q b.im else [])
        "MedlinePlus" = 0 := by
      cases sel.internetmedicin
      · simp [countSource]
      · exact countSource_eq_zero _ _ _ (by simpa using searchInternetmedicin_source env q b.im)
          (by decide)
    have hotMl : countSource (if sel.orto then searchOrto env q b.ot else [])
        "MedlinePlus" = 0 := by
      cases sel.orto
      · simp [countSource]
      · exact countSource_eq_zero _ _ _ (by simpa using searchOrto_source env q b.ot) (by decide)
    have hmlMl : countSource (if sel.medlineplus then searchMedlinePlus b.ml else [])
        "MedlinePlus" ≤ 3 := by
      cases sel.medlineplus
      · simp [countSource]
      · calc countSource (searchMedlinePlus b.ml) "MedlinePlus"
            ≤ (searchMedlinePlus b.ml).length := countSource_le_length _ _
        _ ≤ 3 := searchMedlinePlus_length b.ml
    have hmlPm : countSource (if sel.medlineplus then searchMedlinePlus b.ml else [])
        "PubMed" = 0 := by
      cases sel.medlineplus
      · simp [countSource]
      · exact countSource_eq_zero _ _ _ (by simpa using searchMedlinePlus_source b.ml) (by decide)
    have himPm : countSource (if sel.internetmedicin then searchInternetmedicin env q b.im else [])
        "PubMed" = 0 := by
      cases sel.internetmedicin
      · simp [countSource]
      · exact countSource_eq_zero _ _ _ (by simpa using searchInternetmedicin_source env q b.im)
          (by decide)
    have hotPm : countSource (if sel.orto then searchOrto env q b.ot else []) "PubMed" = 0 := by
      cases sel.orto
      · simp [countSource]
      · exact countSource_eq_zero _ _ _ (by simpa using searchOrto_source env q b.ot) (by decide)
    have hpmPm : countSource (if sel.pubmed then searchPubMed b.pm else [])
        "PubMed" ≤ pubmedIdCount b.pm := by
      cases sel.pubmed
      · simp [countSource]
      · calc countSource (searchPubMed b.pm) "PubMed"
            ≤ (searchPubMed b.pm).length := countSource_le_length _ _
        _ ≤ pubmedIdCount b.pm := searchPubMed_length b.pm
    simp only [countSource_append]
    omega

/-- Witness for search_per_source_caps at a concrete request whose
MedlinePlus backend answers with one entry. -/
theorem search_per_source_caps_witness :
    countSource (respResults (searchPOST envNoCred "flu" (some ⟨false, true, false, false⟩)
        ⟨pmOne, mlOne, .transport "x", .transport "x"⟩)) "MedlinePlus" ≤ 3 ∧
    countSource (respResults (searchPOST envNoCred "flu" (some ⟨false, true, false, false⟩)
        ⟨pmOne, mlOne, .transport "x", .transport "x"⟩)) "PubMed" ≤ pubmedIdCount pmOne :=
  search_per_source_caps envNoCred "flu" ⟨false, true, false, false⟩
    ⟨pmOne, mlOne, .transport "x", .transport "x"⟩
    (respResults (searchPOST envNoCred "flu" (some ⟨false, true, false, false⟩)
      ⟨pmOne, mlOne, .transport "x", .transport "x"⟩))
    (by set_option maxRecDepth 8192 in decide)

/-- Claim C6: with no Google API key or no CSE id configured, each
site-search provider answers with exactly one synthetic result pointing at
the manually constructed direct-search URL, attributed to that provider. -/
theorem search_degraded_direct_link (env : Env) (q : String) (oIm oOt : FetchOut CseBody)
    (h : envSet env.googleKey = false ∨ envSet env.googleCseId = false) :
    searchInternetmedicin env q oIm =
      [{ title := "Search Internetmedicin for: " ++ q
         snippet := "Click to search Internetmedicin.se, a Swedish medical information database for healthcare professionals. (Configure Google Custom Search for direct results)"
         url := imDirectUrl q
         source := "Internetmedicin" }] ∧
    searchOrto env q oOt =
      [{ title := "Search Orto.nu for: " ++ q
         snippet := "Click to search Orto.nu, a Swedish orthopedic information resource. (Configure Google Custom Search for direct results)"
         url := ortoDirectUrl q
         source := "Orto.nu" }] := by
  have hc : cseMissing env = true := by
    unfold cseMissing
    rcases h with h | h <;> simp [h]
  constructor
  · unfold searchInternetmedicin
    rw [hc]
    simp
  · unfold searchOrto
    rw [hc]
    simp

/-- Witness for search_degraded_direct_link at the all-absent credential
environment and the query "knee pain". -/
theorem search_degraded_direct_link_witness :
    searchInternetmedicin envNoCred "knee pain" (.transport "x") =
      [{ title := "Search Internetmedicin for: " ++ "knee pain"
         snippet := "Click to search Internetmedicin.se, a Swedish medical information database for healthcare professionals. (Configure Google Custom Search for direct results)"
         url := imDirectUrl "knee pain"
         source := "Internetmedicin" }] ∧
    searchOrto envNoCred "knee pain" (.transport "y") =
      [{ title := "Search Orto.nu for: " ++ "knee pain"
         snippet := "Click to search Orto.nu, a Swedish orthopedic information resource. (Configure Google Custom Search for direct results)"
         url := ortoDirectUrl "knee pain"
         source := "Orto.nu" }] :=
  search_degraded_direct_link envNoCred "knee pain" (.transport "x") (.transport "y")
    (Or.inl (by decide))

/-! ## Claims about the ai-search route -/

/-- Claim C1 counterexample: a generation-backend failure whose message
says grounding is unsupported makes aiSearch return the 500 error response;
no resubmission without the grounding flag, no ungrounded success, no
disclaimer suffix.  The claimed fallback behaviour is false at this
input. -/
theorem aiSearch_grounding_fallback_counterexample :
    aiSearchPOST ⟨none, none, some "k", none⟩ "ont i huvudet" "cephalgia" none
        (.badStatus 400 "Search Grounding is not supported.") =
      (.err "AI-sökning misslyckades" (some "Gemini API error: 400") 500, true) := by
  set_option maxRecDepth 4096 in decide

/-- Claim C1 as amended: aiSearch performs one generation request; every
backend HTTP failure, whatever its error text says (including a
grounding-unsupported message), is surfaced as the fixed 500 error
response after that single call, with no capability-stripping retry. -/
theorem aiSearch_failure_no_retry (env : Env) (q mt : String) (sel : Option SourcesSel)
    (s : Nat) (t : String) (hq : q ≠ "") (hm : mt ≠ "")
    (hk : envSet env.googleKey = true) :
    aiSearchPOST env q mt sel (.badStatus s t) =
      (.err "AI-sökning misslyckades" (some ("Gemini API error: " ++ toString s)) 500, true) := by
  have hq' : (q == "") = false := beq_eq_false_iff_ne.mpr hq
  have hm' : (mt == "") = false := beq_eq_false_iff_ne.mpr hm
  unfold aiSearchPOST
  rw [hq', hm', hk]
  simp

/-- Witness for aiSearch_failure_no_retry at the concrete
grounding-unsupported failure text. -/
theorem aiSearch_failure_no_retry_witness :
    aiSearchPOST ⟨none, none, some "k", none⟩ "huvudvärk" "cephalgia" none
        (.badStatus 429 "grounding not supported for this model") =
      (.err "AI-sökning misslyckades" (some ("Gemini API error: " ++ toString 429)) 500, true) :=
  aiSearch_failure_no_retry ⟨none, none, some "k", none⟩ "huvudvärk" "cephalgia" none
    429 "grounding not supported for this model" (by decide) (by decide) (by decide)

/-- hasGrounding is the emptiness test of the extracted source list. -/
theorem decide_length_pos_iff (l : List GroundingSource) :
    decide (l.length > 0) = false ↔ l = [] := by
  cases l <;> simp

/-- Claim C5 counterexample: at a response whose grounding metadata is
present (grounding attempted) but carries no citable chunk, the result is
a success with hasGrounding = false: the outcome the claim says may carry
isGrounded = true with empty sources actually carries false. -/
theorem aiSearch_grounded_no_source_counterexample :
    aiSearchPOST ⟨none, none, some "k", none⟩ "q" "t" none
        (.ok ⟨some ⟨some [some "Svar"], some [⟨some ⟨some "", some "T"⟩⟩]⟩⟩) =
      (.ok ⟨"Svar", [], false⟩, true) := by
  set_option maxRecDepth 4096 in decide

/-- Claim C5 as amended: on every successful aiSearch response the
groundingSources list is empty exactly when hasGrounding is false; in
particular hasGrounding = true forces a non-empty source list, because the
flag is computed as the non-emptiness of the extracted sources, and a
grounding attempt that yields no citable source produces a non-error
result with hasGrounding = false. -/
theorem aiSearch_hasGrounding_iff_sources (env : Env) (q mt : String)
    (sel : Option SourcesSel) (o : AiOutcome) (a : AiAnswer)
    (h : (aiSearchPOST env q mt sel o).1 = .ok a) :
    (a.hasGrounding = false ↔ a.sources = []) := by
  unfold aiSearchPOST at h
  by_cases h1 : (q == "" || mt == "") = true
  · rw [if_pos h1] at h; cases h
  · rw [if_neg h1] at h
    by_cases h2 : (!(envSet env.googleKey)) = true
    · rw [if_pos h2] at h; cases h
    · rw [if_neg h2] at h
      cases o with
      | ok body =>
        rcases body with ⟨cand⟩
        rcases cand with _ | cand
        · simp at h
        · dsimp only at h
          rcases hft : findTruthyText cand.parts with _ | text
          · rw [hft] at h; cases h
          · rw [hft] at h
            simp only [ApiResp.ok.injEq] at h
            subst h
            exact decide_length_pos_iff (extractSources cand.groundingChunks)
      | badStatus s t => simp at h
      | transport m => simp at h

/-- Witness for aiSearch_hasGrounding_iff_sources at a successful response
with one citable grounding chunk. -/
theorem aiSearch_hasGrounding_iff_sources_witness :
    ((⟨"Svar", [⟨"T", "u"⟩], true⟩ : AiAnswer).hasGrounding = false ↔
      (⟨"Svar", [⟨"T", "u"⟩], true⟩ : AiAnswer).sources = []) :=
  aiSearch_hasGrounding_iff_sources ⟨none, none, some "k", none⟩ "q" "t" none
    (.ok ⟨some ⟨some [some "Svar"], some [⟨some ⟨some "u", some "T"⟩⟩]⟩⟩)
    ⟨"Svar", [⟨"T", "u"⟩], true⟩ (by set_option maxRecDepth 4096 in decide)

/-- Claim C10: with non-empty query and medicalTerms but no Google API key,
aiSearch answers the fixed configuration error with status 500 and issues
no backend call (the effect flag of the model stays false), with no
degraded-success fallback. -/
theorem aiSearch_missing_key_no_backend_call (env : Env) (q mt : String)
    (sel : Option SourcesSel) (o : AiOutcome) (hq : q ≠ "") (hm : mt ≠ "")
    (hk : envSet env.googleKey = false) :
    aiSearchPOST env q mt sel o = (.err "Google API key not configured" none 500, false) := by
  have hq' : (q == "") = false := beq_eq_false_iff_ne.mpr hq
  have hm' : (mt == "") = false := beq_eq_false_iff_ne.mpr hm
  unfold aiSearchPOST
  rw [hq', hm', hk]
  simp

/-- Witness for aiSearch_missing_key_no_backend_call: without the key even
a would-be successful backend outcome is never consulted. -/
theorem aiSearch_missing_key_no_backend_call_witness :
    aiSearchPOST ⟨none, none, none, none⟩ "ont i knät" "gonalgi" none
        (.ok ⟨some ⟨some [some "Svar"], none⟩⟩) =
      (.err "Google API key not configured" none 500, false) :=
  aiSearch_missing_key_no_backend_call ⟨none, none, none, none⟩ "ont i knät" "gonalgi"
    none (.ok ⟨some ⟨some [some "Svar"], none⟩⟩) (by decide) (by decide) (by decide)
